import Mathlib

/-!
Verification of `src/Fleet_Dynamic_Dispatch.py` (mining fleet dispatch:
terrain-aware fuel cost model + capacitated truck→shovel assignment).

Numbers are modelled exactly with ℚ. `scipy.interpolate.interp1d` with
`kind='linear', fill_value="extrapolate"` over the four anchor points is
modelled by its documented semantics: linear interpolation between
consecutive anchors, linear extrapolation with the nearest segment's slope
outside the anchor range. The PuLP CBC solve of the binary program is
modelled as an exact optimizer of that program: it enumerates every
0/1 solution of constraint A (each truck chooses exactly one shovel),
keeps those satisfying constraint B (shovel queue capacities) and returns
a solution of minimal objective value, reporting infeasibility when no
solution satisfies the constraints.
-/

namespace FleetDispatch

/-- Model of `get_optimal_speed` (Fleet_Dynamic_Dispatch.py lines 9-19):
`interp1d([0,5,10,15], [40,25,12,8], kind='linear', fill_value="extrapolate")`
evaluated at `grade_percent`.  For `g ≤ 5` the (0,40)-(5,25) segment's line is
used (this also covers extrapolation below 0, which uses the first segment's
slope); for `5 < g ≤ 10` the (5,25)-(10,12) segment; for `g > 10` the
(10,12)-(15,8) segment's line, which also covers extrapolation beyond 15 with
the last segment's slope. -/
def get_optimal_speed (grade_percent : ℚ) : ℚ :=
  if grade_percent ≤ 5 then
    40 + (grade_percent - 0) * ((25 - 40) / (5 - 0))
  else if grade_percent ≤ 10 then
    25 + (grade_percent - 5) * ((12 - 25) / (10 - 5))
  else
    12 + (grade_percent - 10) * ((8 - 12) / (15 - 10))

/-- Result of `calculate_fuel_cost`: the Python function returns either the
bare scalar `float('inf')` (when the optimal speed is ≤ 0) or a
`(total_fuel_liters, opt_speed_kmh)` tuple. -/
inductive FuelResult where
  | infinite : FuelResult
  | pair (fuelLiters speedKmh : ℚ) : FuelResult
deriving DecidableEq

/-- True exactly when the result is a `(fuel, speed)` tuple that a caller
can unpack into two variables. -/
def FuelResult.isPair : FuelResult → Bool
  | .pair _ _ => true
  | .infinite => false

/-- Model of `calculate_fuel_cost` (Fleet_Dynamic_Dispatch.py lines 21-39):
clamp the grade to ≥ 0, compute the burn rate
`180 + 25*grade + 8*grade**2`, look up the optimal speed for the clamped
grade; if that speed is ≤ 0 return the bare infinity, otherwise return
`(burn_rate * (distance / speed), speed)`. -/
def calculate_fuel_cost (distance_km grade_percent : ℚ) : FuelResult :=
  let grade_used := max grade_percent 0
  let fuel_burn_rate_lph := 180 + 25 * grade_used + 8 * grade_used ^ 2
  let opt_speed_kmh := get_optimal_speed grade_used
  if opt_speed_kmh ≤ 0 then FuelResult.infinite
  else FuelResult.pair (fuel_burn_rate_lph * (distance_km / opt_speed_kmh)) opt_speed_kmh

/-- A shovel record as used by `opt_fleet_dispatch`: id, `max_queue`
capacity, road grade, and the `distance_from_trucks` mapping (modelled as a
total function on truck ids; every instance in the repository supplies an
entry for every truck). -/
structure Shovel where
  id : String
  max_queue : ℕ
  grade_percent : ℚ
  distance_from_trucks : String → ℚ

/-- Fuel result of the route from truck `t` to shovel `s`, exactly as the
optimizer computes it at lines 84-88. -/
def routeFuel (t : String) (s : Shovel) : FuelResult :=
  calculate_fuel_cost (s.distance_from_trucks t) s.grade_percent

/-- The fuel cost the optimizer stores in `costs[(t,s)]`.  The `.infinite`
branch is never reached by `opt_fleet_dispatch`: when any route's result is
the bare infinity, the tuple unpacking at line 88 raises before any cost is
used, which the model reflects by returning `none` before consulting
`routeCost`. -/
def routeCost (t : String) (s : Shovel) : ℚ :=
  match routeFuel t s with
  | .infinite => 0
  | .pair f _ => f

/-- All 0/1 solutions of constraint A (lines 100-101: each truck is assigned
exactly one shovel), represented as the list of chosen shovels, one per
truck in order. -/
def allChoices : List String → List Shovel → List (List Shovel)
  | [], _ => [[]]
  | _ :: ts, shovels =>
      (allChoices ts shovels).flatMap (fun c => shovels.map (fun s => s :: c))

/-- Constraint B (lines 105-106): no shovel receives more trucks than its
`max_queue`. -/
def feasibleChoice (shovels : List Shovel) (c : List Shovel) : Bool :=
  shovels.all (fun s => c.countP (fun s2 => s2.id == s.id) ≤ s.max_queue)

/-- Objective value of a choice (lines 95-96): sum over trucks of the fuel
cost of the chosen route. -/
def choiceCost (trucks : List String) (c : List Shovel) : ℚ :=
  ((trucks.zip c).map (fun p => routeCost p.1 p.2)).sum

/-- Select a minimum-cost element among `best :: rest` (left-to-right scan,
keeping the incumbent on ties). -/
def pickBest (cost : List Shovel → ℚ) : List Shovel → List (List Shovel) → List Shovel
  | best, [] => best
  | best, c :: rest => pickBest cost (if cost c < cost best then c else best) rest

/-- Outcome reported by `opt_fleet_dispatch` (lines 111-129): either the
optimal status with the selected truck→shovel assignment and the objective
value (total fleet fuel), or the non-optimal (infeasible) status. -/
inductive Outcome where
  | optimal (assignment : List (String × String)) (totalCost : ℚ) : Outcome
  | infeasible : Outcome
deriving DecidableEq

/-- Model of `opt_fleet_dispatch` (Fleet_Dynamic_Dispatch.py lines 65-129).
The cost matrix is built first (lines 82-91): each call
`fuel_cost, opt_speed = calculate_fuel_cost(dist, grade)` unpacks the result
into two variables, so if any route's result is the bare scalar infinity the
call raises an uncaught TypeError — modelled as `none`.  Otherwise the CBC
solve is modelled exactly (see the file header): the optimum of the binary
program over constraints A and B, or the infeasible status when no feasible
solution exists. -/
def opt_fleet_dispatch (trucks : List String) (shovels : List Shovel) : Option Outcome :=
  if trucks.all (fun t => shovels.all (fun s => (routeFuel t s).isPair)) then
    match (allChoices trucks shovels).filter (feasibleChoice shovels) with
    | [] => some Outcome.infeasible
    | c :: rest =>
        let best := pickBest (choiceCost trucks) c rest
        some (Outcome.optimal
          ((trucks.zip best).map (fun p => (p.1, p.2.id)))
          (choiceCost trucks best))
  else none

/-- Straight line through the two anchor points `p0` and `p1`, evaluated at
`g` (the interpolant of one segment, also used for extrapolation). -/
def linInterp (p0 p1 : ℚ × ℚ) (g : ℚ) : ℚ :=
  p0.2 + (g - p0.1) * ((p1.2 - p0.2) / (p1.1 - p0.1))

/-- Piecewise-linear interpolant over an anchor table, written from the
spec's words: between consecutive anchors interpolate linearly; outside the
anchor range extrapolate linearly using the nearest segment's slope (the
first segment's line below the range, the last segment's line above it). -/
def piecewiseLinear (g : ℚ) : List (ℚ × ℚ) → ℚ
  | p0 :: p1 :: p2 :: rest =>
      if g ≤ p1.1 then linInterp p0 p1 g else piecewiseLinear g (p1 :: p2 :: rest)
  | [p0, p1] => linInterp p0 p1 g
  | [p] => p.2
  | [] => 0

/-- The spec's description of `optimalSpeed`: the piecewise-linear
interpolant over the anchor table {0%→40, 5%→25, 10%→12, 15%→8}. -/
def optimalSpeedSpec (g : ℚ) : ℚ :=
  piecewiseLinear g [(0, 40), (5, 25), (10, 12), (15, 8)]

/-- The truck fleet of the reference scenario (spec §8 / `__main__`): three
trucks. -/
def mainTrucks : List String := ["T1", "T2", "T3"]

/-- Station A of the reference scenario: capacity 2, grade 0, distances
T1→2, T2→5, T3→3. -/
def shovelA : Shovel :=
  ⟨"A", 2, 0, fun t => if t = "T1" then 2 else if t = "T2" then 5 else 3⟩

/-- Station B of the reference scenario: capacity 2, grade 0, distances
T1→8, T2→1, T3→9. -/
def shovelB : Shovel :=
  ⟨"B", 2, 0, fun t => if t = "T1" then 8 else if t = "T2" then 1 else 9⟩

/-- The two stations of the reference scenario. -/
def mainShovels : List Shovel := [shovelA, shovelB]

/-- A station whose road grade is 25%, for which the optimal speed is 0. -/
def steepShovel : Shovel := ⟨"S", 1, 25, fun _ => 1⟩

/-- A flat station, an alternative the optimizer could route to. -/
def flatShovel : Shovel := ⟨"F", 1, 0, fun _ => 1⟩

/-- A station whose road grade is 30%, for which the optimal speed is
negative. -/
def steepShovel30 : Shovel := ⟨"S30", 2, 30, fun _ => 2⟩

/-- A flat station with room for two trucks. -/
def flatShovel2 : Shovel := ⟨"F2", 2, 0, fun _ => 2⟩

section Helpers

/-- For a clamped grade below 25 the interpolated optimal speed is
positive. -/
theorem get_optimal_speed_pos {q : ℚ} (_h0 : 0 ≤ q) (h25 : q < 25) :
    0 < get_optimal_speed q := by
  unfold get_optimal_speed
  split_ifs with h1 h2 <;> push_neg at * <;> nlinarith

/-- For a clamped grade of 25 or more the interpolated optimal speed is
not positive. -/
theorem get_optimal_speed_nonpos {q : ℚ} (h : 25 ≤ q) :
    get_optimal_speed q ≤ 0 := by
  unfold get_optimal_speed
  split_ifs with h1 h2 <;> nlinarith

/-- The burn rate `180 + 25 g + 8 g²` is positive for clamped grades. -/
theorem burn_rate_pos {q : ℚ} (h0 : 0 ≤ q) :
    0 < 180 + 25 * q + 8 * q ^ 2 := by
  nlinarith

/-- Membership in `allChoices`: exactly the lists choosing, for each truck
in order, one shovel from the shovel list. -/
theorem mem_allChoices {shovels : List Shovel} :
    ∀ {ts : List String} {c : List Shovel},
      c ∈ allChoices ts shovels ↔ c.length = ts.length ∧ ∀ s ∈ c, s ∈ shovels := by
  intro ts
  induction ts with
  | nil =>
      intro c
      constructor
      · intro h
        simp only [allChoices, List.mem_singleton] at h
        subst h
        simp
      · rintro ⟨hlen, -⟩
        simp only [allChoices, List.mem_singleton]
        exact List.length_eq_zero.mp hlen
  | cons t ts ih =>
      intro c
      simp only [allChoices, List.mem_flatMap, List.mem_map]
      constructor
      · rintro ⟨c', hc', s, hs, rfl⟩
        obtain ⟨hlen, hmem⟩ := ih.mp hc'
        refine ⟨by simp [hlen], ?_⟩
        intro s' hs'
        rcases List.mem_cons.mp hs' with rfl | h
        · exact hs
        · exact hmem s' h
      · rintro ⟨hlen, hmem⟩
        cases c with
        | nil => simp at hlen
        | cons s c' =>
            refine ⟨c', ih.mpr ⟨by simpa using hlen,
              fun s' h => hmem s' (List.mem_cons_of_mem _ h)⟩,
              s, hmem s (List.mem_cons_self _ _), rfl⟩

/-- The scan in `pickBest` returns one of its candidates. -/
theorem pickBest_mem (cost : List Shovel → ℚ) (l : List (List Shovel)) :
    ∀ b, pickBest cost b l ∈ b :: l := by
  induction l with
  | nil => intro b; simp [pickBest]
  | cons c rest ih =>
      intro b
      have h := ih (if cost c < cost b then c else b)
      rw [pickBest]
      rcases List.mem_cons.mp h with h1 | h2
      · rw [h1]
        split_ifs with hc
        · exact List.mem_cons_of_mem _ (List.mem_cons_self _ _)
        · exact List.mem_cons_self _ _
      · exact List.mem_cons_of_mem _ (List.mem_cons_of_mem _ h2)

/-- The scan in `pickBest` returns a candidate of minimal cost. -/
theorem pickBest_le (cost : List Shovel → ℚ) (l : List (List Shovel)) :
    ∀ b, ∀ x ∈ b :: l, cost (pickBest cost b l) ≤ cost x := by
  induction l with
  | nil =>
      intro b x hx
      rcases List.mem_cons.mp hx with rfl | h
      · simp [pickBest]
      · simp at h
  | cons c rest ih =>
      intro b x hx
      rw [pickBest]
      have hbb : cost (if cost c < cost b then c else b) ≤ cost b := by
        split_ifs with h
        · exact le_of_lt h
        · exact le_refl _
      have hbc : cost (if cost c < cost b then c else b) ≤ cost c := by
        split_ifs with h
        · exact le_refl _
        · exact le_of_not_lt h
      have hhead : cost (pickBest cost (if cost c < cost b then c else b) rest) ≤
          cost (if cost c < cost b then c else b) :=
        ih _ _ (List.mem_cons_self _ _)
      rcases List.mem_cons.mp hx with rfl | hx'
      · exact le_trans hhead hbb
      rcases List.mem_cons.mp hx' with rfl | hx''
      · exact le_trans hhead hbc
      · exact ih _ x (List.mem_cons_of_mem _ hx'')

/-- When the cost matrix builds without error and the feasible choices are
`c :: rest`, the optimizer reports the optimal status for the minimum-cost
feasible choice. -/
theorem opt_fleet_dispatch_eq_of_filter_cons (trucks : List String) (shovels : List Shovel)
    (hcond : (trucks.all fun t => shovels.all fun s => (routeFuel t s).isPair) = true)
    (c : List Shovel) (rest : List (List Shovel))
    (hfl : (allChoices trucks shovels).filter (feasibleChoice shovels) = c :: rest) :
    opt_fleet_dispatch trucks shovels =
      some (Outcome.optimal
        ((trucks.zip (pickBest (choiceCost trucks) c rest)).map (fun p => (p.1, p.2.id)))
        (choiceCost trucks (pickBest (choiceCost trucks) c rest))) := by
  unfold opt_fleet_dispatch
  rw [if_pos hcond, hfl]

/-- Sums distribute over pointwise sums of mapped functions. -/
theorem sum_map_add_nat {α : Type} (l : List α) (f g : α → ℕ) :
    (l.map (fun a => f a + g a)).sum = (l.map f).sum + (l.map g).sum := by
  induction l with
  | nil => simp
  | cons a l ih => simp [ih]; omega

/-- A count is the sum of its indicator over the list. -/
theorem sum_map_ite_eq_countP {α : Type} (l : List α) (p : α → Bool) :
    (l.map (fun a => if p a then 1 else 0)).sum = l.countP p := by
  induction l with
  | nil => simp [List.countP_nil]
  | cons a l ih => simp [List.countP_cons, ih]; omega

/-- With pairwise-distinct shovel ids, the per-shovel assignment counts of a
choice drawn from the shovel list sum to the choice's length (each chosen
shovel is counted at exactly one station). -/
theorem sum_countP_id (shovels : List Shovel)
    (hids : (shovels.map Shovel.id).Nodup) :
    ∀ c : List Shovel, (∀ s ∈ c, s ∈ shovels) →
      (shovels.map (fun s => c.countP (fun s2 => s2.id == s.id))).sum = c.length := by
  intro c
  induction c with
  | nil => intro _; simp [List.countP_nil]
  | cons x c ih =>
      intro hmem
      have hx : x ∈ shovels := hmem x (List.mem_cons_self _ _)
      have hc := ih (fun s h => hmem s (List.mem_cons_of_mem _ h))
      have hcount : shovels.countP (fun s => x.id == s.id) = 1 := by
        have h1 : shovels.countP (fun s => x.id == s.id) =
            (shovels.map Shovel.id).countP (fun i => x.id == i) := by
          rw [List.countP_map]
          rfl
        have h2 : (shovels.map Shovel.id).countP (fun i => x.id == i) =
            (shovels.map Shovel.id).count x.id := by
          apply List.countP_congr
          intro i _
          exact Bool.coe_iff_coe.mpr (@Bool.beq_comm String _ _ x.id i)
        rw [h1, h2]
        exact List.count_eq_one_of_mem hids (List.mem_map_of_mem _ hx)
      calc (shovels.map (fun s => (x :: c).countP (fun s2 => s2.id == s.id))).sum
          = (shovels.map (fun s =>
              c.countP (fun s2 => s2.id == s.id) +
                if (x.id == s.id) then 1 else 0)).sum := by
            simp only [List.countP_cons]
        _ = (shovels.map (fun s => c.countP (fun s2 => s2.id == s.id))).sum +
              (shovels.map (fun s => if (x.id == s.id) then 1 else 0)).sum :=
            sum_map_add_nat _ _ _
        _ = c.length + 1 := by
            rw [hc, sum_map_ite_eq_countP, hcount]
        _ = (x :: c).length := by simp [Nat.add_comm]

/-- If one route's result is the bare infinity, the cost-matrix build fails
(the tuple unpacking raises) and the optimizer returns nothing. -/
theorem opt_fleet_dispatch_none_of_infinite (trucks : List String) (shovels : List Shovel)
    (t : String) (s : Shovel) (ht : t ∈ trucks) (hs : s ∈ shovels)
    (hinf : routeFuel t s = FuelResult.infinite) :
    opt_fleet_dispatch trucks shovels = none := by
  have hcond : ¬ ((trucks.all fun t => shovels.all fun s => (routeFuel t s).isPair) = true) := by
    intro h
    have h1 := List.all_eq_true.mp h t ht
    have h2 := List.all_eq_true.mp h1 s hs
    rw [hinf] at h2
    simp [FuelResult.isPair] at h2
  unfold opt_fleet_dispatch
  rw [if_neg hcond]

end Helpers

/-- C1 (counterexample): the claim fails as stated.  The instance below has
one vehicle and two stations each with free capacity, so a feasible
assignment exists (the vehicle can go to the flat station), yet
`opt_fleet_dispatch` does not return an optimal assignment: the 30%-grade
station's route cost is the bare infinity, the cost-matrix unpacking fails,
and the call produces no result at all. -/
theorem c1_counterexample :
    (∃ c, c ∈ allChoices ["T1"] [steepShovel30, flatShovel2] ∧
        feasibleChoice [steepShovel30, flatShovel2] c = true) ∧
    opt_fleet_dispatch ["T1"] [steepShovel30, flatShovel2] = none := by
  with_unfolding_all decide

/-- C1 (amended): for every fleet and station list with distinct ids in
which every (vehicle, station) route cost is finite (the result of
`calculate_fuel_cost` is a pair) and admitting a feasible assignment,
`opt_fleet_dispatch` reports the optimal status with an assignment giving
every vehicle exactly one station (one chosen station per truck, in order),
respecting every station's capacity, whose total cost — the sum of the
per-pair fuel costs of the chosen routes — is minimal over all
capacity-respecting complete assignments. -/
theorem c1_optimizer_correct (trucks : List String) (shovels : List Shovel)
    (_htr : trucks.Nodup) (_hids : (shovels.map Shovel.id).Nodup)
    (hfin : ∀ t ∈ trucks, ∀ s ∈ shovels, (routeFuel t s).isPair = true)
    (hfeas : ∃ c, c ∈ allChoices trucks shovels ∧ feasibleChoice shovels c = true) :
    ∃ best, best ∈ allChoices trucks shovels ∧
      feasibleChoice shovels best = true ∧
      best.length = trucks.length ∧ (∀ s ∈ best, s ∈ shovels) ∧
      opt_fleet_dispatch trucks shovels =
        some (Outcome.optimal
          ((trucks.zip best).map (fun p => (p.1, p.2.id)))
          (choiceCost trucks best)) ∧
      ∀ c ∈ allChoices trucks shovels, feasibleChoice shovels c = true →
        choiceCost trucks best ≤ choiceCost trucks c := by
  have hcond : (trucks.all fun t => shovels.all fun s => (routeFuel t s).isPair) = true := by
    rw [List.all_eq_true]
    intro t ht
    rw [List.all_eq_true]
    intro s hs
    exact hfin t ht s hs
  obtain ⟨c₀, hc₀, hfc₀⟩ := hfeas
  have hmemf : c₀ ∈ (allChoices trucks shovels).filter (feasibleChoice shovels) :=
    List.mem_filter.mpr ⟨hc₀, hfc₀⟩
  cases hfl : (allChoices trucks shovels).filter (feasibleChoice shovels) with
  | nil =>
      rw [hfl] at hmemf
      exact absurd hmemf (List.not_mem_nil _)
  | cons c rest =>
      refine ⟨pickBest (choiceCost trucks) c rest, ?_, ?_, ?_, ?_, ?_, ?_⟩
      case _ =>
        have h := pickBest_mem (choiceCost trucks) rest c
        rw [← hfl] at h
        exact (List.mem_filter.mp h).1
      case _ =>
        have h := pickBest_mem (choiceCost trucks) rest c
        rw [← hfl] at h
        exact (List.mem_filter.mp h).2
      case _ =>
        have h := pickBest_mem (choiceCost trucks) rest c
        rw [← hfl] at h
        exact (mem_allChoices.mp (List.mem_filter.mp h).1).1
      case _ =>
        have h := pickBest_mem (choiceCost trucks) rest c
        rw [← hfl] at h
        exact (mem_allChoices.mp (List.mem_filter.mp h).1).2
      case _ =>
        exact opt_fleet_dispatch_eq_of_filter_cons trucks shovels hcond c rest hfl
      case _ =>
        intro c' hc' hf'
        have hmem : c' ∈ c :: rest := by
          rw [← hfl]
          exact List.mem_filter.mpr ⟨hc', hf'⟩
        exact pickBest_le (choiceCost trucks) rest c c' hmem

/-- C1 (witness): the reference scenario satisfies every hypothesis of the
amended claim, and the conclusion holds there. -/
theorem c1_witness :
    (mainTrucks.Nodup ∧ (mainShovels.map Shovel.id).Nodup ∧
      (∀ t ∈ mainTrucks, ∀ s ∈ mainShovels, (routeFuel t s).isPair = true) ∧
      (∃ c, c ∈ allChoices mainTrucks mainShovels ∧
        feasibleChoice mainShovels c = true)) ∧
    (∃ best, best ∈ allChoices mainTrucks mainShovels ∧
      feasibleChoice mainShovels best = true ∧
      best.length = mainTrucks.length ∧ (∀ s ∈ best, s ∈ mainShovels) ∧
      opt_fleet_dispatch mainTrucks mainShovels =
        some (Outcome.optimal
          ((mainTrucks.zip best).map (fun p => (p.1, p.2.id)))
          (choiceCost mainTrucks best)) ∧
      ∀ c ∈ allChoices mainTrucks mainShovels, feasibleChoice mainShovels c = true →
        choiceCost mainTrucks best ≤ choiceCost mainTrucks c) :=
  ⟨⟨by with_unfolding_all decide, by with_unfolding_all decide,
    by with_unfolding_all decide, by with_unfolding_all decide⟩,
   c1_optimizer_correct mainTrucks mainShovels
    (by with_unfolding_all decide) (by with_unfolding_all decide)
    (by with_unfolding_all decide) (by with_unfolding_all decide)⟩

/-- C2: on the reference scenario (3 trucks, stations A and B of capacity 2
at grade 0, distances T1→A=2, T2→A=5, T3→A=3, T1→B=8, T2→B=1, T3→B=9) the
optimizer assigns T1 and T3 to A and T2 to B, and the reported total cost
equals 180·(2/40 + 3/40 + 1/40) = 27 liters. -/
theorem c2_reference_scenario :
    opt_fleet_dispatch mainTrucks mainShovels =
      some (Outcome.optimal [("T1", "A"), ("T2", "B"), ("T3", "A")] 27) ∧
    (180 : ℚ) * (2 / 40 + 3 / 40 + 1 / 40) = 27 := by
  with_unfolding_all decide

/-- C3 (counterexample): the claim fails as stated.  Three trucks against a
single station of capacity 2 is a capacity shortfall (2 < 3), yet the
optimizer does not report the infeasible outcome: that station's grade is
30%, its route cost is the bare infinity, and the call fails during
cost-matrix construction with no outcome at all. -/
theorem c3_counterexample :
    ((([steepShovel30] : List Shovel).map Shovel.max_queue).sum <
      (["T1", "T2", "T3"] : List String).length) ∧
    opt_fleet_dispatch ["T1", "T2", "T3"] [steepShovel30] = none := by
  with_unfolding_all decide

/-- C3 (amended): whenever the station ids are distinct, every route cost is finite
and the capacities sum to strictly fewer than the number of vehicles, the
optimizer reports the explicit infeasible outcome (distinct by constructor
from every `optimal` outcome), never a partial assignment. -/
theorem c3_infeasible_detected (trucks : List String) (shovels : List Shovel)
    (_htr : trucks.Nodup) (hids : (shovels.map Shovel.id).Nodup)
    (hfin : ∀ t ∈ trucks, ∀ s ∈ shovels, (routeFuel t s).isPair = true)
    (hcap : (shovels.map Shovel.max_queue).sum < trucks.length) :
    opt_fleet_dispatch trucks shovels = some Outcome.infeasible := by
  have hcond : (trucks.all fun t => shovels.all fun s => (routeFuel t s).isPair) = true := by
    rw [List.all_eq_true]
    intro t ht
    rw [List.all_eq_true]
    intro s hs
    exact hfin t ht s hs
  have hfl : (allChoices trucks shovels).filter (feasibleChoice shovels) = [] := by
    rw [List.filter_eq_nil_iff]
    intro c hc hfc
    obtain ⟨hlen, hmem⟩ := mem_allChoices.mp hc
    have hcount : ∀ s ∈ shovels, c.countP (fun s2 => s2.id == s.id) ≤ s.max_queue := by
      intro s hs
      have := List.all_eq_true.mp hfc s hs
      exact of_decide_eq_true this
    have hsum : (shovels.map (fun s => c.countP (fun s2 => s2.id == s.id))).sum ≤
        (shovels.map Shovel.max_queue).sum := by
      apply List.sum_le_sum
      intro s hs
      exact hcount s hs
    rw [sum_countP_id shovels hids c hmem, hlen] at hsum
    omega
  unfold opt_fleet_dispatch
  rw [if_pos hcond, hfl]

/-- C3 (witness): the 3-vehicle scenario with both capacities reduced to 1
(capacity sum 2 < 3 vehicles) is reported infeasible. -/
theorem c3_witness :
    (mainTrucks.Nodup ∧
      (([⟨"A", 1, 0, shovelA.distance_from_trucks⟩,
         ⟨"B", 1, 0, shovelB.distance_from_trucks⟩] : List Shovel).map Shovel.id).Nodup ∧
      (∀ t ∈ mainTrucks,
        ∀ s ∈ ([⟨"A", 1, 0, shovelA.distance_from_trucks⟩,
                ⟨"B", 1, 0, shovelB.distance_from_trucks⟩] : List Shovel),
          (routeFuel t s).isPair = true) ∧
      (([⟨"A", 1, 0, shovelA.distance_from_trucks⟩,
         ⟨"B", 1, 0, shovelB.distance_from_trucks⟩] : List Shovel).map
           Shovel.max_queue).sum < mainTrucks.length) ∧
    opt_fleet_dispatch mainTrucks
      [⟨"A", 1, 0, shovelA.distance_from_trucks⟩,
       ⟨"B", 1, 0, shovelB.distance_from_trucks⟩] = some Outcome.infeasible :=
  ⟨⟨by with_unfolding_all decide, by with_unfolding_all decide,
    by with_unfolding_all decide, by with_unfolding_all decide⟩,
   c3_infeasible_detected mainTrucks _
    (by with_unfolding_all decide) (by with_unfolding_all decide)
    (by with_unfolding_all decide) (by with_unfolding_all decide)⟩

/-- C4: for a non-negative distance and any grade whose clamped value keeps
the optimal speed positive, `calculate_fuel_cost` returns exactly the pair
of `fuelLiters = (180 + 25 g + 8 g²) · (d / optimalSpeed g)` (with `g` the
clamped grade) and `speedKmh = optimalSpeed g`. -/
theorem c4_fuel_cost_formula (d g : ℚ) (_hd : 0 ≤ d)
    (hs : 0 < get_optimal_speed (max g 0)) :
    calculate_fuel_cost d g =
      FuelResult.pair
        ((180 + 25 * max g 0 + 8 * (max g 0) ^ 2) * (d / get_optimal_speed (max g 0)))
        (get_optimal_speed (max g 0)) := by
  simp only [calculate_fuel_cost]
  rw [if_neg (not_le.mpr hs)]

/-- C4 (witness): at distance 2 km and grade 0 the formula gives
180·(2/40) = 9 liters at 40 km/h. -/
theorem c4_witness :
    (0 ≤ (2 : ℚ)) ∧ (0 < get_optimal_speed (max 0 0)) ∧
    calculate_fuel_cost 2 0 =
      FuelResult.pair
        ((180 + 25 * max (0 : ℚ) 0 + 8 * (max (0 : ℚ) 0) ^ 2) *
          (2 / get_optimal_speed (max 0 0)))
        (get_optimal_speed (max 0 0)) :=
  ⟨by norm_num, by with_unfolding_all decide,
   c4_fuel_cost_formula 2 0 (by norm_num) (by with_unfolding_all decide)⟩

/-- C5: `get_optimal_speed` agrees everywhere with the piecewise-linear
interpolant over the anchor table {0→40, 5→25, 10→12, 15→8} (which, outside
[0,15], extrapolates with the nearest segment's slope rather than
clamping); it recovers each anchor exactly, below 0 it follows the first
segment's line, above 15 it follows the last segment's line, and in
particular its value at grade 20 is 8 + (20−15)·((8−12)/(15−10)) = 4. -/
theorem c5_speed_interpolant :
    (∀ g : ℚ, get_optimal_speed g = optimalSpeedSpec g) ∧
    get_optimal_speed 0 = 40 ∧ get_optimal_speed 5 = 25 ∧
    get_optimal_speed 10 = 12 ∧ get_optimal_speed 15 = 8 ∧
    (∀ g : ℚ, g < 0 → get_optimal_speed g = 40 + (g - 0) * ((25 - 40) / (5 - 0))) ∧
    (∀ g : ℚ, 15 < g → get_optimal_speed g = 8 + (g - 15) * ((8 - 12) / (15 - 10))) ∧
    get_optimal_speed 20 = 8 + (20 - 15) * ((8 - 12) / (15 - 10)) ∧
    get_optimal_speed 20 = 4 := by
  refine ⟨?_, by with_unfolding_all decide, by with_unfolding_all decide,
    by with_unfolding_all decide, by with_unfolding_all decide, ?_, ?_,
    by with_unfolding_all decide, by with_unfolding_all decide⟩
  · intro g
    simp only [get_optimal_speed, optimalSpeedSpec, piecewiseLinear, linInterp]
  · intro g hg
    simp only [get_optimal_speed]
    rw [if_pos (by linarith : g ≤ 5)]
  · intro g hg
    simp only [get_optimal_speed]
    rw [if_neg (by linarith : ¬ g ≤ 5), if_neg (by linarith : ¬ g ≤ 10)]
    ring

/-- C5 (witness): the interpolant law evaluated at grades −2 and 20. -/
theorem c5_witness :
    get_optimal_speed (-2) = 40 + ((-2 : ℚ) - 0) * ((25 - 40) / (5 - 0)) ∧
    get_optimal_speed 20 = 8 + ((20 : ℚ) - 15) * ((8 - 12) / (15 - 10)) :=
  ⟨c5_speed_interpolant.2.2.2.2.2.1 (-2) (by norm_num),
   c5_speed_interpolant.2.2.2.2.2.2.1 20 (by norm_num)⟩

/-- C6 (code evaluation at the failing input): at distance 1 km and grade
25% the clamped grade's optimal speed is 0, so `calculate_fuel_cost`
returns the bare scalar infinity; and in a dispatch call where that route
appears alongside a usable flat alternative station (a feasible assignment
exists), the optimizer does not route around it — the cost-matrix
unpacking fails and the call produces no outcome at all, optimal or
infeasible. -/
theorem c6_infinite_cost_is_fatal :
    calculate_fuel_cost 1 25 = FuelResult.infinite ∧
    (∃ c, c ∈ allChoices ["T1"] [steepShovel, flatShovel] ∧
        feasibleChoice [steepShovel, flatShovel] c = true) ∧
    opt_fleet_dispatch ["T1"] [steepShovel, flatShovel] = none := by
  with_unfolding_all decide

/-- C7 (counterexample): a negative distance is not rejected — at distance
−1 km and grade 0 the function silently returns the pair of a negative
fuel quantity, −180/40 = −9/2 liters, with speed 40. -/
theorem c7_counterexample :
    calculate_fuel_cost (-1) 0 = FuelResult.pair (-(9 / 2)) 40 := by
  with_unfolding_all decide

/-- C7 (amended): for every negative distance and every grade whose clamped
value keeps the optimal speed positive, `calculate_fuel_cost` raises no
error: it returns a normal `(fuelLiters, speedKmh)` pair computed from the
negative travel time, whose fuel quantity is strictly negative. -/
theorem c7_negative_distance_accepted (d g : ℚ) (hd : d < 0)
    (hs : 0 < get_optimal_speed (max g 0)) :
    ∃ f, calculate_fuel_cost d g = FuelResult.pair f (get_optimal_speed (max g 0)) ∧
      f < 0 := by
  refine ⟨(180 + 25 * max g 0 + 8 * (max g 0) ^ 2) * (d / get_optimal_speed (max g 0)),
    ?_, ?_⟩
  · simp only [calculate_fuel_cost]
    rw [if_neg (not_le.mpr hs)]
  · have hburn : 0 < 180 + 25 * max g 0 + 8 * (max g 0) ^ 2 :=
      burn_rate_pos (le_max_right g 0)
    have hdiv : d / get_optimal_speed (max g 0) < 0 := div_neg_of_neg_of_pos hd hs
    exact mul_neg_of_pos_of_neg hburn hdiv

/-- C7 (witness): at distance −1 and grade 0 the amended claim produces the
negative fuel pair. -/
theorem c7_witness :
    ((-1 : ℚ) < 0) ∧ (0 < get_optimal_speed (max 0 0)) ∧
    (∃ f, calculate_fuel_cost (-1) 0 = FuelResult.pair f (get_optimal_speed (max 0 0)) ∧
      f < 0) :=
  ⟨by norm_num, by with_unfolding_all decide,
   c7_negative_distance_accepted (-1) 0 (by norm_num) (by with_unfolding_all decide)⟩

/-- C8: a negative grade is clamped to zero, so `calculate_fuel_cost`
returns exactly the same result as at grade 0, for every distance. -/
theorem c8_negative_grade_clamped (d g : ℚ) (hg : g < 0) :
    calculate_fuel_cost d g = calculate_fuel_cost d 0 := by
  have h : max g 0 = 0 := max_eq_right hg.le
  have h0 : max (0 : ℚ) 0 = 0 := max_self 0
  simp only [calculate_fuel_cost, h, h0]

/-- C8 (witness): grade −3 behaves exactly like grade 0 at distance 7. -/
theorem c8_witness :
    ((-3 : ℚ) < 0) ∧ calculate_fuel_cost 7 (-3) = calculate_fuel_cost 7 0 :=
  ⟨by norm_num, c8_negative_grade_clamped 7 (-3) (by norm_num)⟩

/-- C9: for a non-negative distance and a grade whose clamped value is
below 25, the cost model produces a route with a (finite) non-negative fuel
cost and a positive travel speed. -/
theorem c9_route_invariant (d g : ℚ) (hd : 0 ≤ d) (hg : max g 0 < 25) :
    ∃ f v, calculate_fuel_cost d g = FuelResult.pair f v ∧ 0 ≤ f ∧ 0 < v := by
  have hv : 0 < get_optimal_speed (max g 0) :=
    get_optimal_speed_pos (le_max_right g 0) hg
  refine ⟨(180 + 25 * max g 0 + 8 * (max g 0) ^ 2) * (d / get_optimal_speed (max g 0)),
    get_optimal_speed (max g 0), ?_, ?_, hv⟩
  · simp only [calculate_fuel_cost]
    rw [if_neg (not_le.mpr hv)]
  · have hburn : 0 < 180 + 25 * max g 0 + 8 * (max g 0) ^ 2 :=
      burn_rate_pos (le_max_right g 0)
    exact mul_nonneg hburn.le (div_nonneg hd hv.le)

/-- C9 (witness): at distance 3 and grade 4 the route cost and speed are a
non-negative and a positive rational. -/
theorem c9_witness :
    (0 ≤ (3 : ℚ)) ∧ (max (4 : ℚ) 0 < 25) ∧
    (∃ f v, calculate_fuel_cost 3 4 = FuelResult.pair f v ∧ 0 ≤ f ∧ 0 < v) :=
  ⟨by norm_num, by norm_num,
   c9_route_invariant 3 4 (by norm_num) (by norm_num)⟩

/-- C10: for any distance and any grade clamped to 25% or more the optimal
speed is not positive and `calculate_fuel_cost` returns the single scalar
infinity — a different shape from the `(fuel, speed)` pair of every other
input — and consequently any dispatch call containing such a route fails
when the cost-matrix construction unpacks that result into two values,
yielding no outcome at all. -/
theorem c10_scalar_infinity_breaks_unpacking (d g : ℚ) (hg : 25 ≤ max g 0)
    (trucks : List String) (shovels : List Shovel) (t : String) (s : Shovel)
    (ht : t ∈ trucks) (hs : s ∈ shovels)
    (hsteep : 25 ≤ max s.grade_percent 0) :
    calculate_fuel_cost d g = FuelResult.infinite ∧
    (routeFuel t s).isPair = false ∧
    opt_fleet_dispatch trucks shovels = none := by
  have hval : ∀ d' g' : ℚ, 25 ≤ max g' 0 →
      calculate_fuel_cost d' g' = FuelResult.infinite := by
    intro d' g' h
    simp only [calculate_fuel_cost]
    rw [if_pos (get_optimal_speed_nonpos h)]
  have hroute : routeFuel t s = FuelResult.infinite := hval _ _ hsteep
  refine ⟨hval d g hg, ?_, ?_⟩
  · rw [hroute]
    rfl
  · exact opt_fleet_dispatch_none_of_infinite trucks shovels t s ht hs hroute

/-- C10 (witness): grade 30 at distance 2, inside a one-truck dispatch call
on that station, produces the scalar infinity and makes the call fail. -/
theorem c10_witness :
    ((25 : ℚ) ≤ max 30 0) ∧ ("T1" ∈ ["T1"]) ∧ (steepShovel30 ∈ [steepShovel30]) ∧
    ((25 : ℚ) ≤ max steepShovel30.grade_percent 0) ∧
    (calculate_fuel_cost 2 30 = FuelResult.infinite ∧
      (routeFuel "T1" steepShovel30).isPair = false ∧
      opt_fleet_dispatch ["T1"] [steepShovel30] = none) :=
  ⟨by norm_num, List.mem_cons_self _ _, List.mem_cons_self _ _,
   by norm_num [steepShovel30],
   c10_scalar_infinity_breaks_unpacking 2 30 (by norm_num) ["T1"] [steepShovel30]
    "T1" steepShovel30 (List.mem_cons_self _ _) (List.mem_cons_self _ _)
    (by norm_num [steepShovel30])⟩

end FleetDispatch
